import Mathlib

/-!
Shallow embedding of `joint_to_cartesian_controller.cpp` from the
`cartesian_controllers` repository (the `JointToCartesianController` class).

The controller glues together external collaborators (URDF parser, KDL tree
builder, chain extraction, forward-kinematics solver, hardware interface).
Those externals are modelled as abstract function fields of an `Externals`
structure; the `read`/`write` methods of the adapter live in repository code that
is not present under `src/`, so their effect on the shared buffer is
modelled from the spec where noted.

The two execution contexts (the outer `update()` callback and the inner
adapter-thread loop body) are embedded as pure step functions that also emit
a trace of events, so that ordering and locking claims can be stated.
-/

namespace JointToCartesian

/-- A parsed URDF model (external opaque datum, carried as its source text). -/
structure UrdfModel where
  data : String
deriving DecidableEq, Repr

/-- A KDL kinematic tree (external opaque datum). -/
structure KDLTree where
  data : String
deriving DecidableEq, Repr

/-- A kinematic chain between two links (external opaque datum). -/
structure Chain where
  data : String
deriving DecidableEq, Repr

/-- A joint-state handle obtained from the hardware interface. -/
structure JointHandle where
  name : String
deriving DecidableEq, Repr

/-- A Cartesian frame: position and quaternion orientation, as produced by
the external forward-kinematics solver. -/
structure Frame where
  px : Rat
  py : Rat
  pz : Rat
  qx : Rat
  qy : Rat
  qz : Rat
  qw : Rat
deriving DecidableEq, Repr

/-- The external collaborators consumed by the controller:
URDF parsing (`urdf::Model::initString`), KDL tree construction
(`kdl_parser::treeFromUrdfModel`), chain extraction (`KDL::Tree::getChain`),
hardware handle lookup (`hw->getHandle`, which throws on a missing joint,
modelled as `none`), and forward kinematics
(`KDL::ChainFkSolverPos_recursive::JntToCart`). -/
structure Externals where
  urdfParse : String → Option UrdfModel
  treeFromUrdf : UrdfModel → Option KDLTree
  getChain : KDLTree → String → String → Option Chain
  getHandle : String → Option JointHandle
  fk : Chain → List Rat → Frame

/-- The configuration read from the parameter server in `init`.
`none` models an absent key. -/
structure Config where
  robot_description : Option String
  robot_base_link : Option String
  end_effector_link : Option String
  target_frame_topic : Option String
  joints : Option (List String)

/-- Member state of the controller after a successful `init`:
the configured names, the extracted chain, the resolved handles, and the
shared joint buffers `m_positions` / `m_velocities`. -/
structure ControllerState where
  robot_base_link : String
  end_effector_link : String
  target_frame_topic : String
  robot_chain : Chain
  joint_names : List String
  joint_state_handles : List JointHandle
  positions : List Rat
  velocities : List Rat
deriving DecidableEq, Repr

/-- Outcome of `init`: C++ `return false`, a thrown `std::runtime_error`
(or a hardware-interface exception from `getHandle`), or success with the
constructed member state. -/
inductive InitResult where
  | retFalse : InitResult
  | exn : String → InitResult
  | ok : ControllerState → InitResult
deriving DecidableEq, Repr

/-- Whether an `InitResult` is a thrown exception. -/
def InitResult.isExn : InitResult → Bool
  | .exn _ => true
  | _ => false

/-- Whether an `InitResult` is a success. -/
def InitResult.isOk : InitResult → Bool
  | .ok _ => true
  | _ => false

/-- Full outcome of `init`: the topics advertised (in order) before the
function ended, together with its result. -/
structure InitOutcome where
  advertised : List String
  result : InitResult
deriving DecidableEq, Repr

/-- Resolve each joint name to a hardware handle, in order;
`hw->getHandle` throws on the first missing joint (`none`). -/
def resolveHandles (ext : Externals) : List String → Option (List JointHandle)
  | [] => some []
  | n :: ns =>
    match ext.getHandle n with
    | none => none
    | some h =>
      match resolveHandles ext ns with
      | none => none
      | some hs => some (h :: hs)

/-- Embedding of `JointToCartesianController::init`, mirroring the source
statement order: read the four parameters (`target_frame_topic` defaulting
to `"target_frame"`), advertise the pose publisher, parse the URDF model
(`return false` on failure), build the KDL tree (throw on failure), extract
the chain (throw on failure), read the `joints` list (throw on failure),
resolve handles (the hardware interface throws on a missing joint), and
size the shared buffers to the number of handles, zero-filled. -/
def init (ext : Externals) (cfg : Config) : InitOutcome :=
  match cfg.robot_description with
  | none => ⟨[], .retFalse⟩
  | some robot_description =>
    match cfg.robot_base_link with
    | none => ⟨[], .retFalse⟩
    | some robot_base_link =>
      match cfg.end_effector_link with
      | none => ⟨[], .retFalse⟩
      | some end_effector_link =>
        let target_frame_topic := cfg.target_frame_topic.getD "target_frame"
        let advertised := [target_frame_topic]
        match ext.urdfParse robot_description with
        | none => ⟨advertised, .retFalse⟩
        | some robot_model =>
          match ext.treeFromUrdf robot_model with
          | none => ⟨advertised, .exn "Failed to parse KDL tree from urdf model"⟩
          | some robot_tree =>
            match ext.getChain robot_tree robot_base_link end_effector_link with
            | none => ⟨advertised, .exn "Failed to parse robot chain from urdf model"⟩
            | some robot_chain =>
              match cfg.joints with
              | none => ⟨advertised, .exn "Failed to load joints from parameter server"⟩
              | some joint_names =>
                match resolveHandles ext joint_names with
                | none => ⟨advertised, .exn "hardware interface: no such joint"⟩
                | some joint_state_handles =>
                  ⟨advertised, .ok
                    { robot_base_link := robot_base_link
                      end_effector_link := end_effector_link
                      target_frame_topic := target_frame_topic
                      robot_chain := robot_chain
                      joint_names := joint_names
                      joint_state_handles := joint_state_handles
                      positions := List.replicate joint_state_handles.length 0
                      velocities := List.replicate joint_state_handles.length 0 }⟩

/-- The kind of a mutex acquisition: C++ `std::mutex::try_lock` versus a
blocking `lock`. The source only ever calls `try_lock`, but both kinds exist
in the modelled vocabulary so that their absence is a real statement. -/
inductive LockOp where
  | tryAcquire : LockOp
  | blockingAcquire : LockOp
deriving DecidableEq, Repr

/-- A timestamped pose message (`geometry_msgs::PoseStamped`):
`header.stamp`, `header.frame_id`, and the pose from the FK frame. -/
structure PoseStamped where
  stamp : Nat
  frame_id : String
  pose : Frame
deriving DecidableEq, Repr

/-- Observable events of one tick of either execution context. -/
inductive Event where
  /-- the call `m_controller_adapter->read()` -/
  | readHW : Event
  /-- the call `m_controller_manager->update(now, period)` -/
  | cmUpdate : Nat → Rat → Event
  /-- the call `m_mutex.try_lock()` (or a hypothetical blocking lock), with
  whether the acquisition succeeded -/
  | lockAttempt : LockOp → Bool → Event
  /-- the call `m_controller_adapter->write(m_positions)`: overwrite of the
  shared joint-position buffer with the given values -/
  | bufferWrite : List Rat → Event
  /-- publication of a pose on `m_pose_publisher` -/
  | publish : PoseStamped → Event
  /-- the call `rate.sleep()` -/
  | sleep : Event
deriving DecidableEq, Repr

/-- Whether an event is a blocking mutex acquisition. -/
def Event.isBlockingLock : Event → Bool
  | .lockAttempt .blockingAcquire _ => true
  | _ => false

/-- The fixed nominal cycle duration of the adapter thread:
`ros::Rate(100).expectedCycleTime()` = 1/100 s. -/
def nominalCycleTime : Rat := 1 / 100

/-- Embedding of `JointToCartesianController::update`: attempt
`m_mutex.try_lock()`; on success run FK on the current `m_positions`, build
a `PoseStamped` stamped `ros::Time::now()` (`now`) with
`frame_id = m_robot_base_link`, publish it, unlock; on failure do nothing.
`lockFree` is whether the try-lock succeeds this tick. Returns the event
trace and the pose published this tick (at most one); the member state is
not modified. -/
def update (ext : Externals) (st : ControllerState) (lockFree : Bool)
    (now : Nat) : List Event × Option PoseStamped :=
  if lockFree then
    let frame := ext.fk st.robot_chain st.positions
    let target_pose : PoseStamped :=
      { stamp := now, frame_id := st.robot_base_link, pose := frame }
    ([.lockAttempt .tryAcquire true, .publish target_pose], some target_pose)
  else
    ([.lockAttempt .tryAcquire false], none)

/-- The shared buffer guarded by `m_mutex`: `m_positions` and
`m_velocities`. -/
structure SharedBuffer where
  positions : List Rat
  velocities : List Rat
deriving DecidableEq, Repr

/-- Modelled from the spec: `JointControllerAdapter::write` (the adapter
class code is not under `src/`). Per the spec, the write step overwrites
the shared JointVector with the newly computed joint targets of the
nested stack — one target per controlled joint, i.e. one per adapter handle —
so the written vector is the per-handle command values, in handle order. -/
def adapterWrite (handles : List JointHandle) (cmd : JointHandle → Rat) :
    List Rat :=
  handles.map cmd

/-- Embedding of one iteration of the adapter-thread loop body from
`JointToCartesianController::init`: `read()`, then
`m_controller_manager->update(ros::Time::now(), rate.expectedCycleTime())`
— the fixed nominal cycle time, never the actually `elapsed` time — then a
non-blocking `try_lock`; if acquired, `write(m_positions)` then unlock; and
finally `rate.sleep()`. `cmd` gives the newly computed target for
each handle; `lockFree` is whether the try-lock succeeds this cycle.
Returns the event trace and the updated shared buffer. -/
def adapterCycle (handles : List JointHandle) (cmd : JointHandle → Rat)
    (lockFree : Bool) (now : Nat) (elapsed : Rat) (buf : SharedBuffer) :
    List Event × SharedBuffer :=
  if lockFree then
    ([.readHW, .cmUpdate now nominalCycleTime,
      .lockAttempt .tryAcquire true, .bufferWrite (adapterWrite handles cmd),
      .sleep],
     { buf with positions := adapterWrite handles cmd })
  else
    ([.readHW, .cmUpdate now nominalCycleTime,
      .lockAttempt .tryAcquire false, .sleep],
     buf)

/-- One interleaved step of the two-context system: either an inner
adapter-thread cycle or an outer `update` tick. -/
inductive SysInput where
  | inner : (cmd : JointHandle → Rat) → (lockFree : Bool) → (now : Nat) →
      (elapsed : Rat) → SysInput
  | outer : (lockFree : Bool) → (now : Nat) → SysInput

/-- Apply one system step to the shared buffer (the outer tick never writes
the buffer). -/
def sysStep (ext : Externals) (st : ControllerState) (buf : SharedBuffer) :
    SysInput → SharedBuffer
  | .inner cmd lockFree now elapsed =>
      (adapterCycle st.joint_state_handles cmd lockFree now elapsed buf).2
  | .outer _ _ => buf

/-- Run a whole interleaving of system steps from an initial buffer. -/
def sysRun (ext : Externals) (st : ControllerState) (buf : SharedBuffer) :
    List SysInput → SharedBuffer
  | [] => buf
  | i :: is => sysRun ext st (sysStep ext st buf i) is

/-- The poses published over a run of outer ticks
(each tick given as: did the try-lock succeed, and the current time). -/
def outerRunPublished (ext : Externals) (st : ControllerState)
    (ticks : List (Bool × Nat)) : List PoseStamped :=
  ticks.filterMap (fun t => (update ext st t.1 t.2).2)

/-- The poses published within an event trace, in order. -/
def publishedPoses (evs : List Event) : List PoseStamped :=
  evs.filterMap fun e =>
    match e with
    | .publish p => some p
    | _ => none

/-- Concrete externals in which every external operation succeeds
(used to evaluate the development on concrete inputs). -/
def exAll : Externals where
  urdfParse := fun s => some ⟨s⟩
  treeFromUrdf := fun m => some ⟨m.data⟩
  getChain := fun t b e => some ⟨t.data ++ ":" ++ b ++ ":" ++ e⟩
  getHandle := fun n => some ⟨n⟩
  fk := fun _ q => ⟨q.headD 0, 0, 0, 0, 0, 0, 1⟩

/-- Concrete externals in which URDF parsing fails and everything else
succeeds. -/
def exParseFail : Externals :=
  { exAll with urdfParse := fun _ => none }

/-- A concrete configuration with every mandatory key present and the
optional output-topic key absent. -/
def cfgFull : Config where
  robot_description := some "urdf"
  robot_base_link := some "base_link"
  end_effector_link := some "tool0"
  target_frame_topic := none
  joints := some ["joint1", "joint2"]

/-- The member state produced by `init exAll cfgFull`. -/
def stFull : ControllerState where
  robot_base_link := "base_link"
  end_effector_link := "tool0"
  target_frame_topic := "target_frame"
  robot_chain := ⟨"urdf:base_link:tool0"⟩
  joint_names := ["joint1", "joint2"]
  joint_state_handles := [⟨"joint1"⟩, ⟨"joint2"⟩]
  positions := [0, 0]
  velocities := [0, 0]

end JointToCartesian

namespace JointToCartesian

theorem init_exAll_cfgFull : (init exAll cfgFull).result = .ok stFull := by
  decide

/-- C1: when the outer `update()` acquires the shared-buffer lock, it
publishes exactly one `PoseStamped` whose frame id is the configured
base-link name, whose pose is the forward-kinematics frame of the current
joint-position vector, and whose stamp is the current time. -/
theorem update_lock_acquired_publishes_fk_pose (ext : Externals)
    (st : ControllerState) (now : Nat) :
    publishedPoses (update ext st true now).1 =
      [{ stamp := now, frame_id := st.robot_base_link,
         pose := ext.fk st.robot_chain st.positions }] ∧
    (update ext st true now).2 =
      some { stamp := now, frame_id := st.robot_base_link,
             pose := ext.fk st.robot_chain st.positions } := by
  constructor <;> rfl

/-- C2: when the outer try-lock fails, `update()` emits only the failed
lock attempt — no pose, no other effect — and over any run of outer ticks
the number of published poses is at most the number of ticks. -/
theorem update_lock_failed_no_effect (ext : Externals)
    (st : ControllerState) (now : Nat) (ticks : List (Bool × Nat)) :
    update ext st false now = ([.lockAttempt .tryAcquire false], none) ∧
    publishedPoses (update ext st false now).1 = [] ∧
    (outerRunPublished ext st ticks).length ≤ ticks.length :=
  ⟨rfl, rfl, List.length_filterMap_le _ _⟩

/-- C3: when the inner try-lock fails, the adapter-thread cycle leaves the
shared joint buffer (positions and velocities) unchanged. -/
theorem adapterCycle_lock_failed_buffer_unchanged (handles : List JointHandle)
    (cmd : JointHandle → Rat) (now : Nat) (elapsed : Rat)
    (buf : SharedBuffer) :
    (adapterCycle handles cmd false now elapsed buf).2 = buf := rfl

/-- C4: every adapter-thread cycle performs, in order: hardware read,
controller-manager step with the current time and the fixed nominal cycle
duration (independent of the actually elapsed time), a non-blocking
try-lock write of the computed joint positions, and the pacing sleep. -/
theorem adapterCycle_event_order (handles : List JointHandle)
    (cmd : JointHandle → Rat) (lockFree : Bool) (now : Nat) (elapsed : Rat)
    (buf : SharedBuffer) :
    (adapterCycle handles cmd lockFree now elapsed buf).1 =
      [.readHW, .cmUpdate now nominalCycleTime,
       .lockAttempt .tryAcquire lockFree] ++
      (if lockFree then [.bufferWrite (adapterWrite handles cmd)] else []) ++
      [.sleep] := by
  cases lockFree <;> rfl

/-- C5: neither execution context ever performs a blocking acquire of the
shared-buffer mutex: every lock operation in both the outer `update` trace
and the inner adapter-cycle trace is a non-blocking try-acquire. -/
theorem no_blocking_lock (ext : Externals) (st : ControllerState)
    (outerFree : Bool) (outerNow : Nat) (handles : List JointHandle)
    (cmd : JointHandle → Rat) (innerFree : Bool) (innerNow : Nat)
    (elapsed : Rat) (buf : SharedBuffer) :
    ((update ext st outerFree outerNow).1.all
      fun e => ! e.isBlockingLock) = true ∧
    ((adapterCycle handles cmd innerFree innerNow elapsed buf).1.all
      fun e => ! e.isBlockingLock) = true := by
  cases outerFree <;> cases innerFree <;>
    simp [update, adapterCycle, Event.isBlockingLock]

theorem resolveHandles_length (ext : Externals) :
    ∀ (ns : List String) (hs : List JointHandle),
      resolveHandles ext ns = some hs → hs.length = ns.length := by
  intro ns
  induction ns with
  | nil =>
      intro hs h
      simp only [resolveHandles, Option.some.injEq] at h
      subst h
      rfl
  | cons n ns ih =>
      intro hs h
      unfold resolveHandles at h
      cases hg : ext.getHandle n with
      | none => rw [hg] at h; exact absurd h (by simp)
      | some hd =>
        rw [hg] at h
        cases hr : resolveHandles ext ns with
        | none => rw [hr] at h; exact absurd h (by simp)
        | some tl =>
          rw [hr] at h
          cases h
          simp [ih tl hr]

theorem init_ok_fields (ext : Externals) (cfg : Config)
    (st : ControllerState) (h : (init ext cfg).result = .ok st) :
    st.target_frame_topic = cfg.target_frame_topic.getD "target_frame" ∧
    cfg.joints = some st.joint_names ∧
    resolveHandles ext st.joint_names = some st.joint_state_handles ∧
    st.positions = List.replicate st.joint_state_handles.length 0 ∧
    st.velocities = List.replicate st.joint_state_handles.length 0 := by
  unfold init at h
  repeat' split at h
  all_goals simp_all
  subst h
  simp_all

theorem sysStep_velocities (ext : Externals) (st : ControllerState)
    (buf : SharedBuffer) (i : SysInput) :
    (sysStep ext st buf i).velocities = buf.velocities := by
  cases i with
  | inner cmd lockFree now elapsed => cases lockFree <;> rfl
  | outer lockFree now => rfl

theorem sysRun_velocities (ext : Externals) (st : ControllerState) :
    ∀ (inputs : List SysInput) (buf : SharedBuffer),
      (sysRun ext st buf inputs).velocities = buf.velocities := by
  intro inputs
  induction inputs with
  | nil => intro buf; rfl
  | cons i is ih =>
      intro buf
      rw [sysRun, ih, sysStep_velocities]

theorem sysStep_positions_length (ext : Externals) (st : ControllerState)
    (buf : SharedBuffer) (i : SysInput)
    (h : buf.positions.length = st.joint_state_handles.length) :
    (sysStep ext st buf i).positions.length =
      st.joint_state_handles.length := by
  cases i with
  | inner cmd lockFree now elapsed =>
      cases lockFree
      · exact h
      · simp [sysStep, adapterCycle, adapterWrite]
  | outer lockFree now => exact h

theorem sysRun_positions_length (ext : Externals) (st : ControllerState) :
    ∀ (inputs : List SysInput) (buf : SharedBuffer),
      buf.positions.length = st.joint_state_handles.length →
      (sysRun ext st buf inputs).positions.length =
        st.joint_state_handles.length := by
  intro inputs
  induction inputs with
  | nil => intro buf h; exact h
  | cons i is ih =>
      intro buf h
      rw [sysRun]
      exact ih _ (sysStep_positions_length ext st buf i h)

/-- C6: if any mandatory configuration value — robot description, base
link, end-effector link, or joint-name list — is absent, `init` does not
succeed (the controller never reaches the ready state). -/
theorem init_missing_mandatory_fails (ext : Externals) (cfg : Config)
    (h : cfg.robot_description = none ∨ cfg.robot_base_link = none ∨
         cfg.end_effector_link = none ∨ cfg.joints = none) :
    (init ext cfg).result.isOk = false := by
  unfold init
  repeat' split
  all_goals simp_all [InitResult.isOk]

/-- Witness for C6: a configuration with the robot description absent makes
`init` fail on concrete inputs. -/
theorem init_missing_mandatory_fails_witness :
    (init exAll { cfgFull with robot_description := none }).result.isOk
      = false :=
  init_missing_mandatory_fails exAll
    { cfgFull with robot_description := none } (Or.inl rfl)

/-- Counterexample to C7 as stated: with a robot description that cannot be
parsed, `init` performs a soft error return (C++ `return false`), not a
process-level exception. -/
theorem init_parse_failure_is_soft : exParseFail.urdfParse "urdf" = none ∧
    (init exParseFail cfgFull).result = .retFalse ∧
    (init exParseFail cfgFull).result.isExn = false := by
  decide

/-- C7 (amended): with the three mandatory link/description keys present, a
URDF-model parse failure makes `init` return false (soft error), while a
KDL-tree construction failure or a base/end-effector chain-resolution
failure raises a process-level exception. -/
theorem init_parse_soft_tree_chain_exn (ext : Externals) (cfg : Config)
    (desc base tip : String)
    (hd : cfg.robot_description = some desc)
    (hb : cfg.robot_base_link = some base)
    (he : cfg.end_effector_link = some tip) :
    (ext.urdfParse desc = none → (init ext cfg).result = .retFalse) ∧
    (∀ model, ext.urdfParse desc = some model →
      ext.treeFromUrdf model = none → (init ext cfg).result.isExn = true) ∧
    (∀ model tree, ext.urdfParse desc = some model →
      ext.treeFromUrdf model = some tree →
      ext.getChain tree base tip = none →
      (init ext cfg).result.isExn = true) := by
  refine ⟨?_, ?_, ?_⟩
  · intro hp
    simp only [init, hd, hb, he, hp]
  · intro model hp ht
    simp only [init, hd, hb, he, hp, ht]
    rfl
  · intro model tree hp ht hc
    simp only [init, hd, hb, he, hp, ht, hc]
    rfl

/-- Witness for the amended C7, instantiated at concrete externals in which
URDF parsing fails. -/
theorem init_parse_soft_tree_chain_exn_witness :
    (exParseFail.urdfParse "urdf" = none →
      (init exParseFail cfgFull).result = .retFalse) ∧
    (∀ model, exParseFail.urdfParse "urdf" = some model →
      exParseFail.treeFromUrdf model = none →
      (init exParseFail cfgFull).result.isExn = true) ∧
    (∀ model tree, exParseFail.urdfParse "urdf" = some model →
      exParseFail.treeFromUrdf model = some tree →
      exParseFail.getChain tree "base_link" "tool0" = none →
      (init exParseFail cfgFull).result.isExn = true) :=
  init_parse_soft_tree_chain_exn exParseFail cfgFull
    "urdf" "base_link" "tool0" rfl rfl rfl

/-- C8: after a successful `init` with `n` configured joint names, the
shared position and velocity vectors each have length `n`, and no
interleaving of inner adapter cycles and outer updates ever changes those
lengths. -/
theorem init_buffer_length_invariant (ext : Externals) (cfg : Config)
    (st : ControllerState) (names : List String)
    (hj : cfg.joints = some names)
    (h : (init ext cfg).result = .ok st)
    (inputs : List SysInput) :
    st.positions.length = names.length ∧
    st.velocities.length = names.length ∧
    (sysRun ext st ⟨st.positions, st.velocities⟩ inputs).positions.length
      = names.length ∧
    (sysRun ext st ⟨st.positions, st.velocities⟩ inputs).velocities.length
      = names.length := by
  obtain ⟨_, hjoints, hres, hpos, hvel⟩ := init_ok_fields ext cfg st h
  rw [hj] at hjoints
  have hn : names = st.joint_names := by injection hjoints
  have hhl : st.joint_state_handles.length = names.length := by
    rw [hn]; exact resolveHandles_length ext st.joint_names
      st.joint_state_handles hres
  have hp : st.positions.length = names.length := by
    rw [hpos, List.length_replicate, hhl]
  have hv : st.velocities.length = names.length := by
    rw [hvel, List.length_replicate, hhl]
  refine ⟨hp, hv, ?_, ?_⟩
  · rw [sysRun_positions_length ext st inputs ⟨st.positions, st.velocities⟩
      (by simpa using hp.trans hhl.symm)]
    exact hhl
  · rw [sysRun_velocities ext st inputs ⟨st.positions, st.velocities⟩]
    exact hv

/-- Witness for C8 at the concrete successful initialization, over a
concrete interleaving of inner and outer steps. -/
theorem init_buffer_length_invariant_witness :
    stFull.positions.length = 2 ∧
    stFull.velocities.length = 2 ∧
    (sysRun exAll stFull ⟨stFull.positions, stFull.velocities⟩
      [.inner (fun _ => 1) true 5 (7 / 100),
       .inner (fun _ => 2) false 6 (1 / 100),
       .outer true 7]).positions.length = 2 ∧
    (sysRun exAll stFull ⟨stFull.positions, stFull.velocities⟩
      [.inner (fun _ => 1) true 5 (7 / 100),
       .inner (fun _ => 2) false 6 (1 / 100),
       .outer true 7]).velocities.length = 2 := by
  have h := init_buffer_length_invariant exAll cfgFull stFull
    ["joint1", "joint2"] rfl (by decide)
    [.inner (fun _ => 1) true 5 (7 / 100),
     .inner (fun _ => 2) false 6 (1 / 100),
     .outer true 7]
  simpa using h

/-- C9: `init` is deterministic — two successful runs on identical inputs
yield identical member state (same chain, same handles in the same order),
and when the output-topic key is unspecified the topic is the fixed
default "target_frame". -/
theorem init_deterministic (ext : Externals) (cfg : Config)
    (st st' : ControllerState)
    (h : (init ext cfg).result = .ok st)
    (h' : (init ext cfg).result = .ok st') :
    st = st' ∧
    (cfg.target_frame_topic = none →
      st.target_frame_topic = "target_frame") := by
  constructor
  · rw [h] at h'
    injection h'
  · intro ht
    obtain ⟨htopic, _⟩ := init_ok_fields ext cfg st h
    rw [htopic, ht]
    rfl

/-- Witness for C9 at the concrete successful initialization. -/
theorem init_deterministic_witness :
    stFull = stFull ∧
    (cfgFull.target_frame_topic = none →
      stFull.target_frame_topic = "target_frame") :=
  init_deterministic exAll cfgFull stFull stFull (by decide) (by decide)

/-- C10: whenever `init` has the three mandatory link/description keys and
then fails at the model-parsing, tree-building, or chain-extraction step
(or later), the pose publisher on the configured-or-default topic has
already been advertised — the failed initialization leaves that side
effect in place. -/
theorem init_advertises_before_model_failure (ext : Externals)
    (cfg : Config) (desc base tip : String)
    (hd : cfg.robot_description = some desc)
    (hb : cfg.robot_base_link = some base)
    (he : cfg.end_effector_link = some tip)
    (hfail : (init ext cfg).result.isOk = false) :
    (init ext cfg).advertised =
      [cfg.target_frame_topic.getD "target_frame"] := by
  simp only [init, hd, hb, he]
  repeat' split
  all_goals rfl

/-- Witness for C10: the concrete failing parse still advertises the
default topic. -/
theorem init_advertises_before_model_failure_witness :
    (init exParseFail cfgFull).advertised =
      [cfgFull.target_frame_topic.getD "target_frame"] :=
  init_advertises_before_model_failure exParseFail cfgFull
    "urdf" "base_link" "tool0" rfl rfl rfl (by decide)

end JointToCartesian
